import Mathlib

/-!
Shallow embedding of `src/Apostilas/alert_detector.py` (class `AlertDetector`),
and verification of the specification's claims about it.

Modelling conventions:
* Sensor readings and float-valued parameters are rationals (`ℚ`); the window
  and plateau-length parameters are naturals in the state (every value the
  setters accept is positive) while the setters take `ℤ` arguments, since a
  Python caller may pass any integer.
* A `Bool` returned by a setter is the Python return value (`True` = committed,
  `False` = rejected with a printed message and no state change).
* `Except PyError α` models a fallible operation: `Except.error e` is an
  UNCAUGHT Python exception of kind `e` (a crash propagating to the caller),
  not a handled signal.  The dataframe is reduced to its `'values'` column.
-/

namespace AlertDetectorModel

/-- Kinds of Python exceptions relevant to the detector, plus the spec-level
`NotReadyError` (named by the specification's error-handling design; needed to
state claims that mention it). -/
inductive PyError where
  | typeError
  | attributeError
  | valueError
  | notReadyError
deriving DecidableEq, Repr

/-- The mutable state of one `AlertDetector` instance: the seven configuration
attributes plus the loaded dataframe's `'values'` column (`none` = the
class-level `data = None`, nothing loaded yet). -/
structure AlertDetector where
  lower_limit : ℚ
  upper_limit : ℚ
  slow_mavg_window : ℕ
  fast_mavg_window : ℕ
  mavg_delta : ℚ
  plateau_length : ℕ
  plateau_delta : ℚ
  data : Option (List ℚ)
deriving DecidableEq, Repr

/-- `set_data`: rejects a `'values'` column of length ≤ 20, otherwise stores it.
(The dataframe-type and column-presence checks concern the pandas wrapping,
outside the numeric model.) -/
def set_data (st : AlertDetector) (vals : List ℚ) : Bool × AlertDetector :=
  if vals.length ≤ 20 then (false, st)
  else (true, { st with data := some vals })

/-- `set_lower_limit`: rejected when the current `upper_limit ≤ lower_limit`.
(The `hasattr` branch only fires during `__init__`, before `upper_limit`
exists; every state of this model has all attributes set.) -/
def set_lower_limit (st : AlertDetector) (lower_limit : ℚ) : Bool × AlertDetector :=
  if st.upper_limit ≤ lower_limit then (false, st)
  else (true, { st with lower_limit := lower_limit })

/-- `set_upper_limit`: rejected when the current `lower_limit ≥ upper_limit`. -/
def set_upper_limit (st : AlertDetector) (upper_limit : ℚ) : Bool × AlertDetector :=
  if st.lower_limit ≥ upper_limit then (false, st)
  else (true, { st with upper_limit := upper_limit })

/-- `set_slow_mavg_window`: rejected when `fast_mavg_window ≥` the new value or
the new value `< 20`.  (The `hasattr` branch only fires during `__init__`.) -/
def set_slow_mavg_window (st : AlertDetector) (slow_mavg_window : ℤ) : Bool × AlertDetector :=
  if (st.fast_mavg_window : ℤ) ≥ slow_mavg_window then (false, st)
  else if slow_mavg_window < 20 then (false, st)
  else (true, { st with slow_mavg_window := slow_mavg_window.toNat })

/-- `set_fast_mavg_window`: rejected when `slow_mavg_window ≤` the new value or
the new value `< 5`. -/
def set_fast_mavg_window (st : AlertDetector) (fast_mavg_window : ℤ) : Bool × AlertDetector :=
  if (st.slow_mavg_window : ℤ) ≤ fast_mavg_window then (false, st)
  else if fast_mavg_window < 5 then (false, st)
  else (true, { st with fast_mavg_window := fast_mavg_window.toNat })

/-- `set_mavg_delta`: the source guards its range check with
`if 'self.upper_limit' in locals() and 'self.lower_limit' in locals():`, and
`locals()` inside the method holds only `self` and `mavg_delta`, so the guard
is always `False` and the check (which moreover compares
`self.upper_limit - self.upper_limit`) is dead code.  With a numeric argument
the setter therefore always commits and returns `True`. -/
def set_mavg_delta (st : AlertDetector) (mavg_delta : ℚ) : Bool × AlertDetector :=
  (true, { st with mavg_delta := mavg_delta })

/-- `set_plateau_length`: rejected when the new value `< 10`. -/
def set_plateau_length (st : AlertDetector) (plateau_length : ℤ) : Bool × AlertDetector :=
  if plateau_length < 10 then (false, st)
  else (true, { st with plateau_length := plateau_length.toNat })

/-- `set_plateau_delta`: rejected when the new value `< 0`. -/
def set_plateau_delta (st : AlertDetector) (plateau_delta : ℚ) : Bool × AlertDetector :=
  if plateau_delta < 0 then (false, st)
  else (true, { st with plateau_delta := plateau_delta })

/-- The state built by `__init__`, which calls the seven setters with the
class-level defaults `LOWER_LIMIT = 100`, `UPPER_LIMIT = 1300`,
`SLOW_MAVG_WINDOW = 20`, `FAST_MAVG_WINDOW = 5`, `MAVG_DELTA = 70`,
`PLATEAU_LENGTH = 2000`, `PLATEAU_DELTA = 2`; tracing that cascade (including
the `hasattr` bootstrap branches) commits exactly these values, with `data`
still the class-level `None`. -/
def initState : AlertDetector :=
  { lower_limit := 100, upper_limit := 1300, slow_mavg_window := 20,
    fast_mavg_window := 5, mavg_delta := 70, plateau_length := 2000,
    plateau_delta := 2, data := none }

/-- `__maxmin_calc__`: row flag, `1` iff the value is outside
`[lower_limit, upper_limit]`. -/
def maxmin_calc (st : AlertDetector) (v : ℚ) : ℕ :=
  if v < st.lower_limit ∨ v > st.upper_limit then 1 else 0

/-- `detect_maxmin_rupture`: applies `__maxmin_calc__` to every row.  With
`data = None`, the right-hand side `self.data.apply(...)` of the assignment
is evaluated first, and `None.apply` raises an uncaught `AttributeError`
(before the subscript on the left-hand side is ever reached). -/
def detect_maxmin_rupture (st : AlertDetector) : Except PyError (List ℕ) :=
  match st.data with
  | none => .error .attributeError
  | some vals => .ok (vals.map (maxmin_calc st))

/-- `__moving_average__(w)`: `np.convolve(values, np.ones(w), 'valid') / w`
(the window means at positions `0 .. N-w`) concatenated with `w-1` copies of
`list(values)[-1]`, the raw last reading. -/
def movingAverage (vals : List ℚ) (w : ℕ) : List ℚ :=
  (List.range (vals.length + 1 - w)).map
    (fun i => ((vals.drop i).take w).sum / (w : ℚ))
  ++ List.replicate (w - 1) (vals.getLastD 0)

/-- `__mavg_calc__`: computes the `slow_ma`, `fast_ma` and
`delta_ma = slow_ma - fast_ma` columns.  With `data = None` it raises
`TypeError`.  `np.convolve(values, np.ones(w), 'valid')` has length
`max(N,w) - min(N,w) + 1`, so the concatenated column has length `N` exactly
when `1 ≤ w ≤ N`; otherwise the pandas column assignment raises an uncaught
`ValueError` (length mismatch; `w = 0` already fails inside `np.convolve`). -/
def mavg_calc (st : AlertDetector) : Except PyError (List ℚ × List ℚ × List ℚ) :=
  match st.data with
  | none => .error .typeError
  | some vals =>
    if 1 ≤ st.slow_mavg_window ∧ st.slow_mavg_window ≤ vals.length ∧
       1 ≤ st.fast_mavg_window ∧ st.fast_mavg_window ≤ vals.length then
      let slow := movingAverage vals st.slow_mavg_window
      let fast := movingAverage vals st.fast_mavg_window
      .ok (slow, fast, List.zipWith (fun a b => a - b) slow fast)
    else .error .valueError

/-- `__mavg_delta_calc__`: row flag, `1` iff
`delta_ma < mavg_delta * (-1)` or `delta_ma > mavg_delta`. -/
def mavg_delta_calc (st : AlertDetector) (d : ℚ) : ℕ :=
  if d < st.mavg_delta * (-1) ∨ d > st.mavg_delta then 1 else 0

/-- `detect_fast_slope`: recomputes the moving averages, then applies
`__mavg_delta_calc__` to every row of `delta_ma`; an exception raised while
computing the moving averages propagates. -/
def detect_fast_slope (st : AlertDetector) : Except PyError (List ℕ) :=
  match mavg_calc st with
  | .error e => .error e
  | .ok (_, _, delta) => .ok (delta.map (mavg_delta_calc st))

/-- The `for index,row in self.data.iterrows()` loop of `detect_plateau`,
carrying the accumulator `pcnt`:
`pcnt = pcnt+1 if abs(row['delta_ma']) < plateau_delta else 0`, and the
appended flag is `1 if pcnt > plateau_length else 0`. -/
def plateauScan (pd : ℚ) (pl : ℕ) : ℕ → List ℚ → List ℕ
  | _, [] => []
  | pcnt, d :: ds =>
    let pcnt2 := if |d| < pd then pcnt + 1 else 0
    (if pl < pcnt2 then 1 else 0) :: plateauScan pd pl pcnt2 ds

/-- `detect_plateau`: recomputes the moving averages, then runs the sequential
run-counter scan over `delta_ma` starting from `pcnt = 0`. -/
def detect_plateau (st : AlertDetector) : Except PyError (List ℕ) :=
  match mavg_calc st with
  | .error e => .error e
  | .ok (_, _, delta) => .ok (plateauScan st.plateau_delta st.plateau_length 0 delta)

/-- `detect_all`: runs the three rules in order, then
`alert = np.logical_or(maxmin_alert == 1, delta_ma_alert == 1)` followed by
`alert = np.logical_or(alert == 1, plateau_alert == 1)` (on a boolean column
`alert == 1` is the column itself).  Returns the four flag columns
(`maxmin_alert`, `delta_ma_alert`, `plateau_alert`, `alert`). -/
def detect_all (st : AlertDetector) :
    Except PyError (List ℕ × List ℕ × List ℕ × List Bool) :=
  match detect_maxmin_rupture st with
  | .error e => .error e
  | .ok rupture =>
    match detect_fast_slope st with
    | .error e => .error e
    | .ok slope =>
      match detect_plateau st with
      | .error e => .error e
      | .ok plateau =>
        let alert1 := List.zipWith (fun r s => r == 1 || s == 1) rupture slope
        .ok (rupture, slope, plateau,
          List.zipWith (fun a p => a || p == 1) alert1 plateau)

/-- `np.mean` of the values column. -/
def popMean (vals : List ℚ) : ℚ := vals.sum / (vals.length : ℚ)

/-- The population variance; `np.std(vals)` is its nonnegative square root. -/
def popVariance (vals : List ℚ) : ℚ :=
  ((vals.map (fun x => (x - popMean vals) ^ 2)).sum) / (vals.length : ℚ)

/-- `auto_tune`: computes `mean = np.mean(values)` and
`std = np.std(values)`, then calls `set_lower_limit(mean - 2.5*std)`,
`set_upper_limit(mean + 2.5*std)` and `set_mavg_delta(0.1*(zsc_sup - zsc_inf))`
in that order.  `np.std` is the nonnegative square root of `popVariance`,
irrational in general, so this model takes the value `std` as an argument;
theorems using it carry the side condition `0 ≤ std ∧ std * std = popVariance`
that characterizes `np.std` exactly.  With `data = None`,
`np.mean(self.data['values'])` raises an uncaught `TypeError`. -/
def auto_tune (st : AlertDetector) (std : ℚ) : Except PyError AlertDetector :=
  match st.data with
  | none => .error .typeError
  | some vals =>
    let mean := popMean vals
    let zsc_inf := mean - 5/2 * std
    let zsc_sup := mean + 5/2 * std
    let st1 := (set_lower_limit st zsc_inf).2
    let st2 := (set_upper_limit st1 zsc_sup).2
    let st3 := (set_mavg_delta st2 (1/10 * (zsc_sup - zsc_inf))).2
    .ok st3

/-- One call to a mutator of the detector, for reasoning about arbitrary call
sequences. -/
inductive SetterCall where
  | callSetData (vals : List ℚ)
  | callSetLowerLimit (x : ℚ)
  | callSetUpperLimit (x : ℚ)
  | callSetSlowMavgWindow (x : ℤ)
  | callSetFastMavgWindow (x : ℤ)
  | callSetMavgDelta (x : ℚ)
  | callSetPlateauLength (x : ℤ)
  | callSetPlateauDelta (x : ℚ)
deriving DecidableEq, Repr

/-- The state after one setter call (discarding the returned `Bool`). -/
def applyCall (st : AlertDetector) : SetterCall → AlertDetector
  | .callSetData vals => (set_data st vals).2
  | .callSetLowerLimit x => (set_lower_limit st x).2
  | .callSetUpperLimit x => (set_upper_limit st x).2
  | .callSetSlowMavgWindow x => (set_slow_mavg_window st x).2
  | .callSetFastMavgWindow x => (set_fast_mavg_window st x).2
  | .callSetMavgDelta x => (set_mavg_delta st x).2
  | .callSetPlateauLength x => (set_plateau_length st x).2
  | .callSetPlateauDelta x => (set_plateau_delta st x).2

/-- The state after a sequence of setter calls. -/
def applyCalls (st : AlertDetector) (cs : List SetterCall) : AlertDetector :=
  cs.foldl applyCall st

/-- The four relational configuration invariants of the specification. -/
def configInvariant (st : AlertDetector) : Prop :=
  st.lower_limit < st.upper_limit ∧
  st.fast_mavg_window < st.slow_mavg_window ∧
  20 ≤ st.slow_mavg_window ∧
  5 ≤ st.fast_mavg_window

instance (st : AlertDetector) : Decidable (configInvariant st) := by
  unfold configInvariant; infer_instance

/-! Helper lemmas about the embedded operations. -/

theorem movingAverage_length (vals : List ℚ) (w : ℕ) (h1 : 1 ≤ w) (h2 : w ≤ vals.length) :
    (movingAverage vals w).length = vals.length := by
  simp only [movingAverage, List.length_append, List.length_map, List.length_range,
    List.length_replicate]
  omega

theorem movingAverage_getElem? (vals : List ℚ) (w : ℕ) (h1 : 1 ≤ w) (h2 : w ≤ vals.length)
    (i : ℕ) (hi : i < vals.length) :
    (movingAverage vals w)[i]? =
      some (if i + w ≤ vals.length then ((vals.drop i).take w).sum / (w : ℚ)
            else vals.getLastD 0) := by
  unfold movingAverage
  rcases Nat.lt_or_ge i (vals.length + 1 - w) with hlt | hge
  · rw [List.getElem?_append_left (by simpa using hlt)]
    rw [List.getElem?_map, List.getElem?_range hlt]
    rw [if_pos (by omega)]
    rfl
  · rw [List.getElem?_append_right (by simpa using hge)]
    rw [if_neg (by omega)]
    simp only [List.length_map, List.length_range]
    rw [List.getElem?_replicate, if_pos (by omega)]

theorem movingAverage_replicate (n : ℕ) (c : ℚ) (w : ℕ) (h1 : 1 ≤ w) (h2 : w ≤ n) :
    movingAverage (List.replicate n c) w = List.replicate n c := by
  apply List.ext_getElem?
  intro i
  rcases Nat.lt_or_ge i n with hi | hi
  · rw [movingAverage_getElem? _ _ h1 (by simpa using h2) i (by simpa using hi)]
    rw [List.getElem?_replicate, if_pos hi]
    congr 1
    split
    · rename_i hiw
      rw [List.drop_replicate, List.take_replicate]
      have hmin : min w (n - i) = w := by
        simp only [List.length_replicate] at hiw
        omega
      rw [hmin, List.sum_replicate, nsmul_eq_mul]
      have hw : (w : ℚ) ≠ 0 := Nat.cast_ne_zero.mpr (by omega)
      rw [mul_div_cancel_left₀ c hw]
    · rw [List.getLastD_eq_getLast?, List.getLast?_replicate, if_neg (by omega)]
      rfl
  · have e1 : (movingAverage (List.replicate n c) w)[i]? = none := by
      apply List.getElem?_eq_none
      rw [movingAverage_length _ _ h1 (by simpa using h2)]
      simpa using hi
    have e2 : (List.replicate n c)[i]? = none := by
      apply List.getElem?_eq_none
      simpa using hi
    rw [e1, e2]

theorem plateauScan_length (pd : ℚ) (pl : ℕ) :
    ∀ (pcnt : ℕ) (ds : List ℚ), (plateauScan pd pl pcnt ds).length = ds.length := by
  intro pcnt ds
  induction ds generalizing pcnt with
  | nil => rfl
  | cons d ds ih => simp [plateauScan, ih]

theorem plateauScan_zero_delta (pl : ℕ) :
    ∀ (pcnt : ℕ) (ds : List ℚ), plateauScan 0 pl pcnt ds = List.replicate ds.length 0 := by
  intro pcnt ds
  induction ds generalizing pcnt with
  | nil => rfl
  | cons d ds ih =>
    have habs : ¬ |d| < (0 : ℚ) := not_lt.mpr (abs_nonneg d)
    simp only [plateauScan, if_neg habs, List.length_cons, List.replicate_succ]
    rw [if_neg (by omega), ih]

theorem plateauScan_replicate_zero (pd : ℚ) (pl : ℕ) (hpd : 0 < pd) :
    ∀ (n pcnt : ℕ), plateauScan pd pl pcnt (List.replicate n (0 : ℚ)) =
      (List.range n).map (fun k => if pl < pcnt + k + 1 then 1 else 0) := by
  intro n
  induction n with
  | zero => intro pcnt; rfl
  | succ n ih =>
    intro pcnt
    have habs : |(0 : ℚ)| < pd := by simpa using hpd
    rw [List.replicate_succ, List.range_succ_eq_map]
    simp only [plateauScan, if_pos habs, List.map_cons, ih (pcnt + 1), List.map_map]
    rw [List.cons_eq_cons]
    refine ⟨if_congr (by omega) rfl rfl, ?_⟩
    apply List.map_congr_left
    intro k _
    simp only [Function.comp_apply, Nat.succ_eq_add_one]
    exact if_congr (by omega) rfl rfl

theorem mavg_calc_eq_ok {st : AlertDetector} {vals s f d : List ℚ}
    (hdata : st.data = some vals) (h : mavg_calc st = .ok (s, f, d)) :
    (1 ≤ st.slow_mavg_window ∧ st.slow_mavg_window ≤ vals.length ∧
     1 ≤ st.fast_mavg_window ∧ st.fast_mavg_window ≤ vals.length) ∧
    s = movingAverage vals st.slow_mavg_window ∧
    f = movingAverage vals st.fast_mavg_window ∧
    d = List.zipWith (fun a b => a - b) s f := by
  by_cases hc : (1 ≤ st.slow_mavg_window ∧ st.slow_mavg_window ≤ vals.length ∧
      1 ≤ st.fast_mavg_window ∧ st.fast_mavg_window ≤ vals.length)
  · have hok : mavg_calc st = .ok (movingAverage vals st.slow_mavg_window,
        movingAverage vals st.fast_mavg_window,
        List.zipWith (fun a b => a - b) (movingAverage vals st.slow_mavg_window)
          (movingAverage vals st.fast_mavg_window)) := by
      unfold mavg_calc
      rw [hdata]
      dsimp only
      rw [if_pos hc]
    rw [hok] at h
    simp only [Except.ok.injEq, Prod.mk.injEq] at h
    obtain ⟨hs, hf, hd⟩ := h
    exact ⟨hc, hs.symm, hf.symm, by rw [← hs, ← hf]; exact hd.symm⟩
  · have herr : mavg_calc st = .error .valueError := by
      unfold mavg_calc
      rw [hdata]
      dsimp only
      rw [if_neg hc]
    rw [herr] at h
    cases h

theorem detect_plateau_eq_ok {st : AlertDetector} {flags : List ℕ}
    (h : detect_plateau st = .ok flags) :
    ∃ s f d, mavg_calc st = .ok (s, f, d) ∧
      flags = plateauScan st.plateau_delta st.plateau_length 0 d := by
  unfold detect_plateau at h
  cases hm : mavg_calc st with
  | error e => rw [hm] at h; cases h
  | ok t =>
    obtain ⟨s, f, d⟩ := t
    rw [hm] at h
    simp only [Except.ok.injEq] at h
    exact ⟨s, f, d, rfl, h.symm⟩

theorem detect_fast_slope_eq_ok {st : AlertDetector} {flags : List ℕ}
    (h : detect_fast_slope st = .ok flags) :
    ∃ s f d, mavg_calc st = .ok (s, f, d) ∧ flags = d.map (mavg_delta_calc st) := by
  unfold detect_fast_slope at h
  cases hm : mavg_calc st with
  | error e => rw [hm] at h; cases h
  | ok t =>
    obtain ⟨s, f, d⟩ := t
    rw [hm] at h
    simp only [Except.ok.injEq] at h
    exact ⟨s, f, d, rfl, h.symm⟩

theorem mavg_calc_succeeds {st : AlertDetector} {vals : List ℚ}
    (hdata : st.data = some vals)
    (h1 : 1 ≤ st.slow_mavg_window) (h2 : st.slow_mavg_window ≤ vals.length)
    (h3 : 1 ≤ st.fast_mavg_window) (h4 : st.fast_mavg_window ≤ vals.length) :
    mavg_calc st = .ok (movingAverage vals st.slow_mavg_window,
      movingAverage vals st.fast_mavg_window,
      List.zipWith (fun a b => a - b) (movingAverage vals st.slow_mavg_window)
        (movingAverage vals st.fast_mavg_window)) := by
  unfold mavg_calc
  rw [hdata]
  dsimp only
  rw [if_pos ⟨h1, h2, h3, h4⟩]

/-! Concrete inputs used by counterexamples and witnesses. -/

/-- A loadable 21-sample series: twenty 0-readings followed by a single 21. -/
def exVals : List ℚ :=
  [0, 0, 0, 0, 0, 0, 0, 0, 0, 0, 0, 0, 0, 0, 0, 0, 0, 0, 0, 0, 21]

/-- A loadable 22-sample series with mean 700 and population std 100. -/
def c7Vals : List ℚ :=
  [600, 600, 600, 600, 600, 600, 600, 600, 600, 600, 600,
   800, 800, 800, 800, 800, 800, 800, 800, 800, 800, 800]

/-- The default-configured detector with `c7Vals` loaded. -/
def st7 : AlertDetector := { initState with data := some c7Vals }

/-- The expected outcome of `auto_tune` on `st7` (std = 100). -/
def res7 : AlertDetector :=
  { initState with
    data := some c7Vals,
    lower_limit := 450,
    upper_limit := 950,
    mavg_delta := 50 }

/-- The spec's constant scenario: 25 samples of value 500, `plateau_length` 10,
other parameters at their defaults. -/
def c5State : AlertDetector :=
  { initState with data := some (List.replicate 25 (500 : ℚ)), plateau_length := 10 }

/-- A constant 25-sample series with `plateau_delta` set to 0. -/
def c10State : AlertDetector :=
  { initState with data := some (List.replicate 25 (500 : ℚ)), plateau_delta := 0 }

/-- A default-configured detector with a 21-sample in-range constant series. -/
def st8 : AlertDetector :=
  { initState with data := some (List.replicate 21 (500 : ℚ)) }

theorem getElem?_eq_some_getD {α : Type} {l : List α} {i : ℕ} (h : i < l.length)
    (dflt : α) : l[i]? = some (l.getD i dflt) := by
  rw [List.getD_eq_getElem?_getD, List.getElem?_eq_getElem h]
  rfl

/-! The claims. -/

/-- C1, counterexample: the claim says the last `w-1` positions of a moving
average repeat the final computed moving-average value (the mean of the last
full window) and not the raw last reading.  On the loadable 21-sample series
`exVals` with window 5, the padded position 20 holds the raw last reading 21,
while the mean of the last full window (`exVals[16..20]`) is `21/5 ≠ 21`. -/
theorem moving_average_pad_uses_raw_last_value :
    (set_data initState exVals).1 = true ∧
    (movingAverage exVals 5)[20]? = some 21 ∧
    ((exVals.drop 16).take 5).sum / (5 : ℚ) = 21 / 5 ∧
    (21 : ℚ) ≠ 21 / 5 := by
  refine ⟨rfl, ?_, by norm_num [exVals], by norm_num⟩
  have h := movingAverage_getElem? exVals 5 (by norm_num) (by norm_num [exVals])
    20 (by norm_num [exVals])
  rw [h, if_neg (by norm_num [exVals])]
  rfl

/-- C1, amended: for every series and window `w` with `1 ≤ w ≤ N`, the moving
average at position `i ≤ N-w` is the arithmetic mean of `series[i..i+w-1]`,
and the last `w-1` positions are filled by repeating the RAW last reading of
the series (not the mean of the last full window). -/
theorem moving_average_mean_and_raw_pad :
    ∀ (vals : List ℚ) (w : ℕ), 1 ≤ w → w ≤ vals.length →
    ∀ i, i < vals.length →
    (movingAverage vals w)[i]? =
      some (if i + w ≤ vals.length then ((vals.drop i).take w).sum / (w : ℚ)
            else vals.getLastD 0) := by
  intro vals w h1 h2 i hi
  exact movingAverage_getElem? vals w h1 h2 i hi

/-- Witness for C1's amended theorem at `exVals`, `w = 5`, `i = 20`. -/
theorem moving_average_mean_and_raw_pad_witness :
    (movingAverage exVals 5)[20]? =
      some (if 20 + 5 ≤ exVals.length then ((exVals.drop 20).take 5).sum / (5 : ℚ)
            else exVals.getLastD 0) :=
  moving_average_mean_and_raw_pad exVals 5 (by norm_num) (by norm_num [exVals])
    20 (by norm_num [exVals])

/-- C2, counterexample: the claim says a detection operation invoked before a
Series is loaded signals `NotReadyError` rather than crashing.  On the freshly
constructed detector (`data = None`), `detect_maxmin_rupture` raises an
uncaught `AttributeError` — Python evaluates the assignment's right-hand side
`self.data.apply(...)` first, and `None` has no attribute `apply` — which is
a crash, not a `NotReadyError` signal. -/
theorem detect_unloaded_crashes_not_notReady :
    initState.data = none ∧
    detect_maxmin_rupture initState = .error .attributeError ∧
    PyError.attributeError ≠ PyError.notReadyError :=
  ⟨rfl, rfl, by decide⟩

/-- C2, amended: invoking `detect_maxmin_rupture` before a Series is loaded
raises an uncaught `AttributeError` (`None.apply`, a crash propagating to the
caller); no `NotReadyError` is ever signalled. -/
theorem detect_maxmin_rupture_unloaded_attributeError :
    ∀ st : AlertDetector, st.data = none →
    detect_maxmin_rupture st = .error .attributeError := by
  intro st h
  unfold detect_maxmin_rupture
  rw [h]

/-- Witness for C2's amended theorem at the freshly constructed detector. -/
theorem detect_maxmin_rupture_unloaded_attributeError_witness :
    detect_maxmin_rupture initState = .error .attributeError :=
  detect_maxmin_rupture_unloaded_attributeError initState rfl

/-- C3, counterexample: the claim says a negative `mavg_delta`, or one at least
`upper_limit - lower_limit`, is rejected as a no-op.  From the default
configuration (`mavg_delta = 70`, range `1300 - 100 = 1200`),
`set_mavg_delta(-1)` succeeds and commits `-1`, and `set_mavg_delta(2000)`
succeeds and commits `2000 ≥ 1200`. -/
theorem set_mavg_delta_accepts_negative :
    (-1 : ℚ) < 0 ∧
    set_mavg_delta initState (-1) = (true, { initState with mavg_delta := -1 }) ∧
    initState.mavg_delta = 70 ∧
    initState.upper_limit - initState.lower_limit = 1200 ∧
    (1200 : ℚ) ≤ 2000 ∧
    set_mavg_delta initState 2000 = (true, { initState with mavg_delta := 2000 }) := by
  refine ⟨by norm_num, rfl, rfl, by norm_num [initState], by norm_num, rfl⟩

/-- C3, amended: `set_mavg_delta` accepts every numeric value — negative or
exceeding `upper_limit - lower_limit` alike — unconditionally committing it
and returning `True`: the range check is dead code behind an always-false
`locals()` test (and would compare `upper_limit - upper_limit` anyway), and
there is no non-negativity check. -/
theorem set_mavg_delta_always_commits :
    ∀ (st : AlertDetector) (x : ℚ),
    set_mavg_delta st x = (true, { st with mavg_delta := x }) := by
  intro st x
  rfl

theorem configInvariant_applyCall (st : AlertDetector) (c : SetterCall)
    (h : configInvariant st) : configInvariant (applyCall st c) := by
  obtain ⟨h1, h2, h3, h4⟩ := h
  cases c with
  | callSetData vals =>
    simp only [applyCall, set_data]
    split
    · exact ⟨h1, h2, h3, h4⟩
    · exact ⟨h1, h2, h3, h4⟩
  | callSetLowerLimit x =>
    simp only [applyCall, set_lower_limit]
    split
    · exact ⟨h1, h2, h3, h4⟩
    · rename_i hle
      exact ⟨lt_of_not_le hle, h2, h3, h4⟩
  | callSetUpperLimit x =>
    simp only [applyCall, set_upper_limit]
    split
    · exact ⟨h1, h2, h3, h4⟩
    · rename_i hge
      exact ⟨lt_of_not_le hge, h2, h3, h4⟩
  | callSetSlowMavgWindow x =>
    simp only [applyCall, set_slow_mavg_window]
    split
    · exact ⟨h1, h2, h3, h4⟩
    · split
      · exact ⟨h1, h2, h3, h4⟩
      · rename_i hfast hmin
        refine ⟨h1, ?_, ?_, h4⟩ <;> simp only [] <;> omega
  | callSetFastMavgWindow x =>
    simp only [applyCall, set_fast_mavg_window]
    split
    · exact ⟨h1, h2, h3, h4⟩
    · split
      · exact ⟨h1, h2, h3, h4⟩
      · rename_i hslow hmin
        refine ⟨h1, ?_, h3, ?_⟩ <;> simp only [] <;> omega
  | callSetMavgDelta x =>
    exact ⟨h1, h2, h3, h4⟩
  | callSetPlateauLength x =>
    simp only [applyCall, set_plateau_length]
    split
    · exact ⟨h1, h2, h3, h4⟩
    · exact ⟨h1, h2, h3, h4⟩
  | callSetPlateauDelta x =>
    simp only [applyCall, set_plateau_delta]
    split
    · exact ⟨h1, h2, h3, h4⟩
    · exact ⟨h1, h2, h3, h4⟩

theorem configInvariant_applyCalls (cs : List SetterCall) :
    ∀ st : AlertDetector, configInvariant st → configInvariant (applyCalls st cs) := by
  induction cs with
  | nil => intro st h; exact h
  | cons c cs ih =>
    intro st h
    exact ih (applyCall st c) (configInvariant_applyCall st c h)

/-- C4: starting from the default configuration, after any sequence of
setter calls the invariants `lower_limit < upper_limit`,
`fast_mavg_window < slow_mavg_window`, `slow_mavg_window ≥ 20` and
`fast_mavg_window ≥ 5` all hold (so a setter call that would violate one is
rejected with the prior value retained); in particular `set_upper_limit` with
a value `≤` the current `lower_limit` returns `False` and leaves the whole
state unchanged. -/
theorem config_invariant_preserved :
    configInvariant initState ∧
    (∀ cs : List SetterCall, configInvariant (applyCalls initState cs)) ∧
    (∀ (st : AlertDetector) (x : ℚ), x ≤ st.lower_limit →
      set_upper_limit st x = (false, st)) := by
  have hinit : configInvariant initState := by
    refine ⟨by norm_num [initState], by norm_num [initState], by norm_num [initState],
      by norm_num [initState]⟩
  refine ⟨hinit, fun cs => configInvariant_applyCalls cs initState hinit, ?_⟩
  intro st x hx
  unfold set_upper_limit
  rw [if_pos hx]

/-- Witness for C4 at the call sequence
`[set_lower_limit 400, set_upper_limit 300, set_slow_mavg_window 10]` and at
`set_upper_limit initState 50` (50 ≤ the default lower limit 100). -/
theorem config_invariant_preserved_witness :
    configInvariant (applyCalls initState
      [.callSetLowerLimit 400, .callSetUpperLimit 300, .callSetSlowMavgWindow 10]) ∧
    (50 : ℚ) ≤ initState.lower_limit ∧
    set_upper_limit initState 50 = (false, initState) :=
  ⟨config_invariant_preserved.2.1 _, by norm_num [initState],
    config_invariant_preserved.2.2 initState 50 (by norm_num [initState])⟩

/-- C5: `detect_plateau` scans `delta_ma` in index order carrying a counter
that becomes `run+1` when `|delta_ma[i]| < plateau_delta` and `0` otherwise,
emitting flag `1` exactly when the updated counter exceeds `plateau_length`
(first conjunct: the scan's step equation); consequently, on a constant
series with `plateau_delta > 0`, the flags are `0` for the first
`plateau_length` samples and `1` from index `plateau_length` on (second
conjunct). -/
theorem detect_plateau_constant_series :
    (∀ (st : AlertDetector) (pcnt : ℕ) (d : ℚ) (ds : List ℚ),
      plateauScan st.plateau_delta st.plateau_length pcnt (d :: ds) =
        (if st.plateau_length < (if |d| < st.plateau_delta then pcnt + 1 else 0)
         then 1 else 0) ::
        plateauScan st.plateau_delta st.plateau_length
          (if |d| < st.plateau_delta then pcnt + 1 else 0) ds) ∧
    (∀ (st : AlertDetector) (c : ℚ) (n : ℕ),
      st.data = some (List.replicate n c) →
      0 < st.plateau_delta →
      1 ≤ st.slow_mavg_window → st.slow_mavg_window ≤ n →
      1 ≤ st.fast_mavg_window → st.fast_mavg_window ≤ n →
      detect_plateau st = .ok ((List.range n).map
        (fun i => if i < st.plateau_length then 0 else 1))) := by
  constructor
  · intro st pcnt d ds
    rfl
  · intro st c n hdata hpd hs1 hs2 hf1 hf2
    have hok := mavg_calc_succeeds hdata hs1 (by simpa using hs2) hf1 (by simpa using hf2)
    unfold detect_plateau
    rw [hok]
    dsimp only
    rw [movingAverage_replicate n c _ hs1 hs2, movingAverage_replicate n c _ hf1 hf2]
    simp only [List.zipWith_replicate', sub_self]
    rw [plateauScan_replicate_zero st.plateau_delta st.plateau_length hpd n 0]
    congr 1
    apply List.map_congr_left
    intro k _
    by_cases hkp : k < st.plateau_length
    · rw [if_neg (by omega), if_pos hkp]
    · rw [if_pos (by omega), if_neg hkp]

/-- Witness for C5 at the spec's scenario: 25 constant samples of 500,
`plateau_length = 10`, `plateau_delta = 2`. -/
theorem detect_plateau_constant_series_witness :
    detect_plateau c5State = .ok ((List.range 25).map
      (fun i => if i < c5State.plateau_length then 0 else 1)) :=
  detect_plateau_constant_series.2 c5State 500 25 rfl
    (by norm_num [c5State, initState]) (by decide) (by decide) (by decide) (by decide)

/-- C8: with a series loaded, `detect_maxmin_rupture` flags sample `i` with
`1` iff `values[i] < lower_limit` or `values[i] > upper_limit` and `0`
otherwise, with no dependence on the moving averages (the flag list is a pure
per-sample map over the raw values); on a series lying entirely within
`[lower_limit, upper_limit]` the flags are all zero. -/
theorem rupture_rule_spec :
    ∀ (st : AlertDetector) (vals : List ℚ), st.data = some vals →
    detect_maxmin_rupture st = .ok (vals.map (maxmin_calc st)) ∧
    (∀ i, i < vals.length → (vals.map (maxmin_calc st))[i]? =
      some (if vals.getD i 0 < st.lower_limit ∨ st.upper_limit < vals.getD i 0
            then 1 else 0)) ∧
    ((∀ v ∈ vals, st.lower_limit ≤ v ∧ v ≤ st.upper_limit) →
      vals.map (maxmin_calc st) = List.replicate vals.length 0) := by
  intro st vals hdata
  refine ⟨?_, ?_, ?_⟩
  · unfold detect_maxmin_rupture
    rw [hdata]
  · intro i hi
    rw [List.getElem?_map, getElem?_eq_some_getD hi 0]
    rfl
  · intro hin
    rw [List.eq_replicate_iff]
    refine ⟨by simp, ?_⟩
    intro b hb
    obtain ⟨v, hv, rfl⟩ := List.mem_map.mp hb
    obtain ⟨hlo, hhi⟩ := hin v hv
    unfold maxmin_calc
    rw [if_neg]
    rintro (h | h)
    · exact absurd hlo (not_le.mpr h)
    · exact absurd hhi (not_le.mpr h)

/-- Witness for C8 at a 21-sample constant in-range series under the default
limits. -/
theorem rupture_rule_spec_witness :
    detect_maxmin_rupture st8 = .ok ((List.replicate 21 (500 : ℚ)).map (maxmin_calc st8)) ∧
    (List.replicate 21 (500 : ℚ)).map (maxmin_calc st8) =
      List.replicate (List.replicate 21 (500 : ℚ)).length 0 :=
  ⟨(rupture_rule_spec st8 _ rfl).1,
   (rupture_rule_spec st8 _ rfl).2.2 (by
      intro v hv
      rw [List.eq_of_mem_replicate hv]
      constructor <;> norm_num [st8, initState])⟩

/-- C9: whenever the moving-average computation runs on a loaded series (the
windows fitting in the series, the regime in which the numpy/pandas column
assignment succeeds), the `slow_ma`, `fast_ma` and `delta_ma` columns all
have exactly the series' length, and `delta_ma[i] = slow_ma[i] - fast_ma[i]`
at every index. -/
theorem mavg_lengths_and_delta :
    ∀ (st : AlertDetector) (vals : List ℚ), st.data = some vals →
    1 ≤ st.slow_mavg_window → st.slow_mavg_window ≤ vals.length →
    1 ≤ st.fast_mavg_window → st.fast_mavg_window ≤ vals.length →
    ∃ slow fast delta, mavg_calc st = .ok (slow, fast, delta) ∧
      slow.length = vals.length ∧ fast.length = vals.length ∧
      delta.length = vals.length ∧
      ∀ i, i < vals.length → delta[i]? = some (slow.getD i 0 - fast.getD i 0) := by
  intro st vals hdata hs1 hs2 hf1 hf2
  have hls := movingAverage_length vals st.slow_mavg_window hs1 hs2
  have hlf := movingAverage_length vals st.fast_mavg_window hf1 hf2
  refine ⟨_, _, _, mavg_calc_succeeds hdata hs1 hs2 hf1 hf2, hls, hlf, ?_, ?_⟩
  · rw [List.length_zipWith, hls, hlf, min_self]
  · intro i hi
    rw [List.getElem?_zipWith, getElem?_eq_some_getD (by rw [hls]; exact hi) 0,
      getElem?_eq_some_getD (by rw [hlf]; exact hi) 0]

/-- Witness for C9 at the 22-sample series `c7Vals` under the default
windows. -/
theorem mavg_lengths_and_delta_witness :
    ∃ slow fast delta, mavg_calc st7 = .ok (slow, fast, delta) ∧
      slow.length = c7Vals.length ∧ fast.length = c7Vals.length ∧
      delta.length = c7Vals.length ∧
      ∀ i, i < c7Vals.length → delta[i]? = some (slow.getD i 0 - fast.getD i 0) :=
  mavg_lengths_and_delta st7 c7Vals rfl (by decide) (by decide) (by decide) (by decide)

/-- C10: `set_plateau_delta` accepts the value 0 (its only range check is
`plateau_delta < 0`), and with `plateau_delta = 0` the plateau scan's
condition `|delta_ma[i]| < 0` never holds, so `detect_plateau` yields an
all-zero flag list on every series — a perfectly constant one included. -/
theorem zero_plateau_delta_all_zero :
    (∀ st : AlertDetector,
      set_plateau_delta st 0 = (true, { st with plateau_delta := 0 })) ∧
    (∀ (st : AlertDetector) (vals : List ℚ), st.plateau_delta = 0 →
      st.data = some vals →
      1 ≤ st.slow_mavg_window → st.slow_mavg_window ≤ vals.length →
      1 ≤ st.fast_mavg_window → st.fast_mavg_window ≤ vals.length →
      detect_plateau st = .ok (List.replicate vals.length 0)) := by
  constructor
  · intro st
    unfold set_plateau_delta
    rw [if_neg (lt_irrefl 0)]
  · intro st vals hpd hdata hs1 hs2 hf1 hf2
    have hld : (List.zipWith (fun a b => a - b)
        (movingAverage vals st.slow_mavg_window)
        (movingAverage vals st.fast_mavg_window)).length = vals.length := by
      rw [List.length_zipWith, movingAverage_length vals _ hs1 hs2,
        movingAverage_length vals _ hf1 hf2, min_self]
    unfold detect_plateau
    rw [mavg_calc_succeeds hdata hs1 hs2 hf1 hf2]
    dsimp only
    rw [hpd, plateauScan_zero_delta, hld]

/-- Witness for C10 at a constant 25-sample series with `plateau_delta = 0`. -/
theorem zero_plateau_delta_all_zero_witness :
    set_plateau_delta c10State 0 = (true, { c10State with plateau_delta := 0 }) ∧
    detect_plateau c10State = .ok (List.replicate (List.replicate 25 (500 : ℚ)).length 0) :=
  ⟨zero_plateau_delta_all_zero.1 c10State,
   zero_plateau_delta_all_zero.2 c10State _ rfl rfl
     (by decide) (by decide) (by decide) (by decide)⟩

theorem alert_or_getElem? (R S P : List ℕ) (N : ℕ) (hR : R.length = N)
    (hS : S.length = N) (hP : P.length = N) (i : ℕ) (hi : i < N) :
    (List.zipWith (fun a p => a || p == 1)
      (List.zipWith (fun r s => r == 1 || s == 1) R S) P)[i]? =
      some ((R.getD i 0 == 1) || (S.getD i 0 == 1) || (P.getD i 0 == 1)) := by
  have h1 : (List.zipWith (fun r s => r == 1 || s == 1) R S)[i]? =
      some ((R.getD i 0 == 1) || (S.getD i 0 == 1)) := by
    rw [List.getElem?_zipWith, getElem?_eq_some_getD (by rw [hR]; exact hi) 0,
      getElem?_eq_some_getD (by rw [hS]; exact hi) 0]
  have h1len : (List.zipWith (fun r s => r == 1 || s == 1) R S).length = N := by
    rw [List.length_zipWith, hR, hS, min_self]
  have h1d : (List.zipWith (fun r s => r == 1 || s == 1) R S).getD i false =
      ((R.getD i 0 == 1) || (S.getD i 0 == 1)) := by
    rw [List.getD_eq_getElem?_getD, h1]
    rfl
  rw [List.getElem?_zipWith, getElem?_eq_some_getD (by rw [h1len]; exact hi) false,
    getElem?_eq_some_getD (by rw [hP]; exact hi) 0]
  dsimp only
  rw [h1d, Bool.or_assoc]

/-- C6: after `detect_all()` — which invokes the rupture, slope and plateau
rules in that order within the same call — the combined flag at every sample
index is the logical OR of the three per-rule flags. -/
theorem detect_all_alert_is_or :
    ∀ (st : AlertDetector) (vals : List ℚ), st.data = some vals →
    1 ≤ st.slow_mavg_window → st.slow_mavg_window ≤ vals.length →
    1 ≤ st.fast_mavg_window → st.fast_mavg_window ≤ vals.length →
    ∃ rupture slope plateau alert,
      detect_all st = .ok (rupture, slope, plateau, alert) ∧
      rupture.length = vals.length ∧ slope.length = vals.length ∧
      plateau.length = vals.length ∧ alert.length = vals.length ∧
      ∀ i, i < vals.length →
        alert[i]? = some ((rupture.getD i 0 == 1) || (slope.getD i 0 == 1) ||
          (plateau.getD i 0 == 1)) := by
  intro st vals hdata hs1 hs2 hf1 hf2
  have hok := mavg_calc_succeeds hdata hs1 hs2 hf1 hf2
  have hld : (List.zipWith (fun a b => a - b)
      (movingAverage vals st.slow_mavg_window)
      (movingAverage vals st.fast_mavg_window)).length = vals.length := by
    rw [List.length_zipWith, movingAverage_length vals _ hs1 hs2,
      movingAverage_length vals _ hf1 hf2, min_self]
  have hr : detect_maxmin_rupture st = .ok (vals.map (maxmin_calc st)) := by
    unfold detect_maxmin_rupture
    rw [hdata]
  have hsl : detect_fast_slope st = .ok ((List.zipWith (fun a b => a - b)
      (movingAverage vals st.slow_mavg_window)
      (movingAverage vals st.fast_mavg_window)).map (mavg_delta_calc st)) := by
    unfold detect_fast_slope
    rw [hok]
  have hp : detect_plateau st = .ok (plateauScan st.plateau_delta st.plateau_length 0
      (List.zipWith (fun a b => a - b)
        (movingAverage vals st.slow_mavg_window)
        (movingAverage vals st.fast_mavg_window))) := by
    unfold detect_plateau
    rw [hok]
  have hlr : (vals.map (maxmin_calc st)).length = vals.length := List.length_map vals _
  have hls : ((List.zipWith (fun a b => a - b)
      (movingAverage vals st.slow_mavg_window)
      (movingAverage vals st.fast_mavg_window)).map (mavg_delta_calc st)).length
        = vals.length := by
    rw [List.length_map, hld]
  have hlp : (plateauScan st.plateau_delta st.plateau_length 0
      (List.zipWith (fun a b => a - b)
        (movingAverage vals st.slow_mavg_window)
        (movingAverage vals st.fast_mavg_window))).length = vals.length := by
    rw [plateauScan_length, hld]
  have hall : detect_all st = .ok (vals.map (maxmin_calc st),
      (List.zipWith (fun a b => a - b)
        (movingAverage vals st.slow_mavg_window)
        (movingAverage vals st.fast_mavg_window)).map (mavg_delta_calc st),
      plateauScan st.plateau_delta st.plateau_length 0
        (List.zipWith (fun a b => a - b)
          (movingAverage vals st.slow_mavg_window)
          (movingAverage vals st.fast_mavg_window)),
      List.zipWith (fun a p => a || p == 1)
        (List.zipWith (fun r s => r == 1 || s == 1)
          (vals.map (maxmin_calc st))
          ((List.zipWith (fun a b => a - b)
            (movingAverage vals st.slow_mavg_window)
            (movingAverage vals st.fast_mavg_window)).map (mavg_delta_calc st)))
        (plateauScan st.plateau_delta st.plateau_length 0
          (List.zipWith (fun a b => a - b)
            (movingAverage vals st.slow_mavg_window)
            (movingAverage vals st.fast_mavg_window)))) := by
    unfold detect_all
    rw [hr, hsl, hp]
  refine ⟨_, _, _, _, hall, hlr, hls, hlp, ?_, ?_⟩
  · rw [List.length_zipWith, List.length_zipWith, hlr, hls, min_self, hlp, min_self]
  · intro i hi
    exact alert_or_getElem? _ _ _ vals.length hlr hls hlp i hi

/-- Witness for C6 at a 21-sample constant in-range series under the default
configuration. -/
theorem detect_all_alert_is_or_witness :
    ∃ rupture slope plateau alert,
      detect_all st8 = .ok (rupture, slope, plateau, alert) ∧
      rupture.length = (List.replicate 21 (500 : ℚ)).length ∧
      slope.length = (List.replicate 21 (500 : ℚ)).length ∧
      plateau.length = (List.replicate 21 (500 : ℚ)).length ∧
      alert.length = (List.replicate 21 (500 : ℚ)).length ∧
      ∀ i, i < (List.replicate 21 (500 : ℚ)).length →
        alert[i]? = some ((rupture.getD i 0 == 1) || (slope.getD i 0 == 1) ||
          (plateau.getD i 0 == 1)) :=
  detect_all_alert_is_or st8 _ rfl (by decide) (by decide) (by decide) (by decide)

/-- C7: `auto_tune` writes `lower_limit = mean - 2.5*std`,
`upper_limit = mean + 2.5*std` and `mavg_delta = 0.1*(upper - lower)` through
the three setters and touches nothing else: the windows, `plateau_length`,
`plateau_delta` and the data are unchanged (first conjunct).  On the loaded
22-sample series `c7Vals`, whose mean is 700 and whose population std is 100
(`100 * 100 = popVariance c7Vals` with `0 ≤ 100`), it produces exactly
`lower_limit = 450`, `upper_limit = 950`, `mavg_delta = 50` starting from the
default configuration. -/
theorem auto_tune_spec :
    (∀ (st : AlertDetector) (std : ℚ) (st' : AlertDetector),
      auto_tune st std = .ok st' →
      st'.slow_mavg_window = st.slow_mavg_window ∧
      st'.fast_mavg_window = st.fast_mavg_window ∧
      st'.plateau_length = st.plateau_length ∧
      st'.plateau_delta = st.plateau_delta ∧
      st'.data = st.data) ∧
    (0 : ℚ) ≤ 100 ∧
    (100 : ℚ) * 100 = popVariance c7Vals ∧
    popMean c7Vals = 700 ∧
    set_data initState c7Vals = (true, st7) ∧
    auto_tune st7 100 = .ok res7 ∧
    res7.lower_limit = 450 ∧ res7.upper_limit = 950 ∧ res7.mavg_delta = 50 := by
  have hmean : popMean c7Vals = 700 := by norm_num [popMean, c7Vals]
  refine ⟨?_, by norm_num, ?_, hmean, rfl, ?_, rfl, rfl, rfl⟩
  · intro st std st' h
    unfold auto_tune at h
    cases hdata : st.data with
    | none => rw [hdata] at h; cases h
    | some vals =>
      rw [hdata] at h
      dsimp only at h
      simp only [Except.ok.injEq] at h
      subst h
      refine ⟨?_, ?_, ?_, ?_, ?_⟩ <;>
        (unfold set_mavg_delta set_upper_limit set_lower_limit
         dsimp only
         split <;> split <;> first | rfl | exact hdata)
  · simp only [popVariance, hmean]
    norm_num [c7Vals]
  · have hd7 : st7.data = some c7Vals := rfl
    unfold auto_tune
    rw [hd7]
    dsimp only
    rw [hmean]
    norm_num [set_lower_limit, set_upper_limit, set_mavg_delta, st7, initState, res7]

/-- Witness for C7's quantified part at the concrete `auto_tune` run on
`st7`. -/
theorem auto_tune_spec_witness :
    auto_tune st7 100 = .ok res7 ∧
    res7.plateau_length = st7.plateau_length ∧
    res7.slow_mavg_window = st7.slow_mavg_window :=
  ⟨auto_tune_spec.2.2.2.2.2.1,
   (auto_tune_spec.1 st7 100 res7 auto_tune_spec.2.2.2.2.2.1).2.2.1,
   (auto_tune_spec.1 st7 100 res7 auto_tune_spec.2.2.2.2.2.1).1⟩

end AlertDetectorModel
